import Mathlib

/-!
Shallow embedding of the product-catalog application (`src/main.js`).

The source is a browser script: classes `Category`, `Product`,
`ProductService`, `ProductRenderer` and `ProductCatalogApp`.  Pure methods
become Lean functions; the service state is the explicit list of loaded
products; the renderer's container is the explicit `innerHTML` string;
constructors that can throw return `Except`.  Host-environment behaviour is
modelled explicitly where the script calls into it:

* `new Date(...)` — the raw timestamp strings are carried unchanged;
* `Intl.NumberFormat` (`getFormattedPrice`) — the renderer is parameterized
  by a price formatter `fmtPrice : Int → String`;
* `document.getElementById` — a function `String → Bool` giving element
  existence, plus the tracked container content;
* the `div.textContent` / `div.innerHTML` idiom of `escapeHtml` — the
  browser's text-node serialization (`&` → `&amp;`, `<` → `&lt;`,
  `>` → `&gt;`, NBSP → `&nbsp;`, everything else — including the double
  quote — unchanged).
-/

/-- Raw category record as delivered in the embedded JSON data
(`PRODUCT_DATA[i].category`). -/
structure RawCategory where
  id : Int
  name : String
  slug : String
  image : String
  creationAt : String
  updatedAt : String
deriving DecidableEq

/-- JS `class Category` — constructed from a raw record; `new Date(...)` is host
behaviour, so the timestamp strings are stored unchanged. -/
structure Category where
  id : Int
  name : String
  slug : String
  image : String
  creationAt : String
  updatedAt : String
deriving DecidableEq

/-- The `Category` constructor. -/
def Category.ofRaw (data : RawCategory) : Category :=
  { id := data.id, name := data.name, slug := data.slug, image := data.image,
    creationAt := data.creationAt, updatedAt := data.updatedAt }

/-- JS `Category.getDisplayName()`: `this.name` with fallback "Uncategorized"; the empty
string is the falsy string. -/
def Category.getDisplayName (c : Category) : String :=
  if c.name = "" then "Uncategorized" else c.name

/-- Raw product record as delivered in the embedded JSON data.  `description`
and `images` may be absent (`undefined`), which the constructor and the
falsy checks treat specially, so they are `Option`s here. -/
structure RawProduct where
  id : Int
  title : String
  slug : String
  price : Int
  description : Option String
  category : RawCategory
  images : Option (List String)
  creationAt : String
  updatedAt : String
deriving DecidableEq

/-- JS `class Product`. -/
structure Product where
  id : Int
  title : String
  slug : String
  price : Int
  description : Option String
  category : Category
  images : List String
  creationAt : String
  updatedAt : String
deriving DecidableEq

/-- The `Product` constructor; `this.images = data.images || []`. -/
def Product.ofRaw (data : RawProduct) : Product :=
  { id := data.id, title := data.title, slug := data.slug, price := data.price,
    description := data.description, category := Category.ofRaw data.category,
    images := data.images.getD [],
    creationAt := data.creationAt, updatedAt := data.updatedAt }

def placeholderImage : String := "https://placehold.co/600x400?text=No+Image"

/-- JS `Product.getPrimaryImage()`: `this.images[0] || placeholder`.  Both
`undefined` (no first element) and the empty string are falsy in JS, so both
fall back to the placeholder. -/
def Product.getPrimaryImage (p : Product) : String :=
  match p.images with
  | [] => placeholderImage
  | img :: _ => if img = "" then placeholderImage else img

/-- JS falsiness of an optional string (`!this.description`): absent or
empty. -/
def strFalsy : Option String → Bool
  | none => true
  | some s => s = ""

def noDescriptionText : String := "No description available"

/-- JS `Product.getShortDescription(maxLength = 100)`.  `substring(0, maxLength)`
is modelled on the character list. -/
def Product.getShortDescription (p : Product) (maxLength : Nat := 100) : String :=
  if strFalsy p.description then noDescriptionText
  else
    let d := p.description.getD ""
    if d.length ≤ maxLength then d
    else String.mk (d.data.take maxLength) ++ "..."

/-- JS `ProductService.loadFromJson(jsonData)`: replaces `this.products`
wholesale, ignoring the previous contents. -/
def ProductService.loadFromJson (_products : List Product) (jsonData : List RawProduct) :
    List Product :=
  jsonData.map Product.ofRaw

/-- JS `ProductService.getAllProducts()`. -/
def ProductService.getAllProducts (products : List Product) : List Product :=
  products

/-- JS `ProductService.getProductCount()`. -/
def ProductService.getProductCount (products : List Product) : Nat :=
  products.length

/-- JS `ProductService.findById(id)`: `this.products.find(p => p.id === id)`. -/
def ProductService.findById (products : List Product) (id : Int) : Option Product :=
  products.find? (fun product => product.id == id)

/-- JS `ProductService.filterByCategory(categorySlug)`. -/
def ProductService.filterByCategory (products : List Product) (categorySlug : String) :
    List Product :=
  products.filter (fun product => product.category.slug == categorySlug)

/-- JS `Map.has` on the insertion-ordered association list that models the
`Map`. -/
def mapHasId (m : List (Int × Category)) (k : Int) : Bool :=
  m.any (fun e => e.1 == k)

/-- One `forEach` step of `getUniqueCategories`: `if (!map.has(id)) map.set(id, cat)`;
`Map.set` on a fresh key appends in insertion order. -/
def ProductService.uniqueStep (m : List (Int × Category)) (product : Product) :
    List (Int × Category) :=
  if mapHasId m product.category.id then m
  else m ++ [(product.category.id, product.category)]

/-- JS `ProductService.getUniqueCategories()`: a `Map` keyed by category id in
insertion order, then `Array.from(map.values())`. -/
def ProductService.getUniqueCategories (products : List Product) : List Category :=
  (products.foldl ProductService.uniqueStep []).map Prod.snd

/-- JS `ProductRenderer` instance state: the resolved container id (the tracked
content of the container lives in `CatalogState`). -/
structure ProductRenderer where
  containerId : String
deriving DecidableEq

def containerNotFoundMessage (containerId : String) : String :=
  "Container with id \"" ++ containerId ++ "\" not found"

/-- The `ProductRenderer` constructor: resolve the container or throw.
`doc` models `document.getElementById` as existence of an element id. -/
def ProductRenderer.make (doc : String → Bool) (containerId : String) :
    Except String ProductRenderer :=
  if doc containerId then .ok ⟨containerId⟩
  else .error (containerNotFoundMessage containerId)

/-- One character of the browser's text-node serialization used by the
`div.textContent` / `div.innerHTML` idiom of `escapeHtml`. -/
def ProductRenderer.escapeChar (c : Char) : String :=
  if c = '&' then "&amp;"
  else if c = '<' then "&lt;"
  else if c = '>' then "&gt;"
  else if c = '\u00A0' then "&nbsp;"
  else String.singleton c

def ProductRenderer.escapeChars : List Char → List Char
  | [] => []
  | c :: cs => (ProductRenderer.escapeChar c).data ++ ProductRenderer.escapeChars cs

/-- JS `ProductRenderer.escapeHtml(str)`: `if (!str) return ''`, then the
browser serializes the text node back out of `innerHTML`. -/
def ProductRenderer.escapeHtml (str : String) : String :=
  if str = "" then "" else String.mk (ProductRenderer.escapeChars str.data)

/-- Template text of `createProductCardHtml` before `${product.id}`. -/
def cardChunk0 : String :=
  "\n            <article class=\"product-card\" data-product-id=\""

/-- Template text between `${product.id}` and the escaped primary image. -/
def cardChunk1 : String :=
  "\">\n                <div class=\"product-card__image-wrapper\">\n                    <img \n                        class=\"product-card__image\" \n                        src=\""

/-- Template text between the escaped image and the escaped title (`alt`). -/
def cardChunk2 : String :=
  "\" \n                        alt=\""

/-- Template text between the `alt` title and the escaped display name. -/
def cardChunk3 : String :=
  "\"\n                        loading=\"lazy\"\n                        onerror=\"this.src=\x27https://placehold.co/600x400?text=Error\x27\"\n                    >\n                    <span class=\"product-card__category\">\n                        "

/-- Template text between the display name and the `h2` title. -/
def cardChunk4 : String :=
  "\n                    </span>\n                </div>\n                <div class=\"product-card__body\">\n                    <h2 class=\"product-card__title\">"

/-- Template text between the `h2` title and the short description. -/
def cardChunk5 : String :=
  "</h2>\n                    <p class=\"product-card__description\">"

/-- Template text between the short description and the formatted price. -/
def cardChunk6 : String :=
  "</p>\n                    <div class=\"product-card__footer\">\n                        <span class=\"product-card__price\">"

/-- Template text between the formatted price and the second `${product.id}`. -/
def cardChunk7 : String :=
  "</span>\n                        <span class=\"product-card__id\">ID: "

/-- Template text after the second `${product.id}`. -/
def cardChunk8 : String :=
  "</span>\n                    </div>\n                </div>\n            </article>\n        "

/-- JS `ProductRenderer.createProductCardHtml(product)`.  `fmtPrice` stands for
the host `Intl.NumberFormat` formatter used by `getFormattedPrice`. -/
def ProductRenderer.createProductCardHtml (fmtPrice : Int → String) (product : Product) :
    String :=
  cardChunk0 ++ toString product.id
    ++ cardChunk1 ++ ProductRenderer.escapeHtml product.getPrimaryImage
    ++ cardChunk2 ++ ProductRenderer.escapeHtml product.title
    ++ cardChunk3 ++ ProductRenderer.escapeHtml product.category.getDisplayName
    ++ cardChunk4 ++ ProductRenderer.escapeHtml product.title
    ++ cardChunk5 ++ ProductRenderer.escapeHtml product.getShortDescription
    ++ cardChunk6 ++ fmtPrice product.price
    ++ cardChunk7 ++ toString product.id
    ++ cardChunk8

/-- The fixed "no results" markup of `renderProducts`. -/
def ProductRenderer.noProductsHtml : String :=
  "<p style=\"text-align: center; color: var(--color-text-muted);\">Không có sản phẩm nào</p>"

/-- JS `ProductRenderer.renderProducts(products)`: the container content after
the call.  `this.container.innerHTML = html` assigns wholesale, so the
previous content `_oldContent` is ignored. -/
def ProductRenderer.renderProducts (fmtPrice : Int → String) (products : List Product)
    (_oldContent : String) : String :=
  if products.length = 0 then ProductRenderer.noProductsHtml
  else String.join (products.map (ProductRenderer.createProductCardHtml fmtPrice))

/-- The fixed loading markup of `showLoading`. -/
def ProductRenderer.loadingHtml : String :=
  "\n            <div class=\"loading\">\n                <div class=\"loading__spinner\"></div>\n            </div>\n        "

/-- Template text of `showError` before the escaped message. -/
def errorHtmlPre : String :=
  "\n            <p style=\"text-align: center; color: var(--color-error); padding: 2rem;\">\n                ❌ "

/-- Template text of `showError` after the escaped message. -/
def errorHtmlPost : String := "\n            </p>\n        "

/-- JS `ProductRenderer.showError(message)`: the container content after the
call. -/
def ProductRenderer.showErrorHtml (message : String) : String :=
  errorHtmlPre ++ ProductRenderer.escapeHtml message ++ errorHtmlPost

/-- Observable state of one `ProductCatalogApp` run: the service's product
list, the container's `innerHTML`, and the text of the optional count
element (`none` models a missing `productCount` element). -/
structure CatalogState where
  products : List Product
  containerHtml : String
  countElText : Option String
deriving DecidableEq

/-- App state plus the console log written by `console.error`. -/
structure AppEnv (ε : Type) where
  app : CatalogState
  consoleLog : List ε

/-- The fixed user-facing message of `handleError`. -/
def errorMessageText : String := "Có lỗi xảy ra khi tải dữ liệu sản phẩm"

/-- JS `ProductCatalogApp.updateProductCount(count)`: writes
`` `${count} sản phẩm` `` when the count element exists, else no-op. -/
def ProductCatalogApp.updateProductCount (count : Nat) (a : CatalogState) : CatalogState :=
  match a.countElText with
  | none => a
  | some _ => { a with countElText := some (toString count ++ " sản phẩm") }

/-- JS `ProductCatalogApp.handleError(error)`: show the fixed user-facing
message and log the underlying error.  `devLogging` models the guard
`typeof console !== "undefined" && process?.env?.NODE_ENV !== "production"` (source uses single quotes). -/
def ProductCatalogApp.handleError {ε : Type} (error : ε) (devLogging : Bool)
    (st : AppEnv ε) : AppEnv ε :=
  { app := { st.app with containerHtml := ProductRenderer.showErrorHtml errorMessageText },
    consoleLog := if devLogging then error :: st.consoleLog else st.consoleLog }

/-- JS `ProductCatalogApp.init()`.  The try-block is `body`: from the state
reached after `showLoading` it returns the state it got to and, when it
raised, the exception it raised; the catch-all routes any such exception to
`handleError`. -/
def ProductCatalogApp.init {ε : Type} (devLogging : Bool)
    (body : CatalogState → CatalogState × Option ε) (st : AppEnv ε) : AppEnv ε :=
  match body { st.app with containerHtml := ProductRenderer.loadingHtml } with
  | (a, none) => { st with app := a }
  | (a, some e) => ProductCatalogApp.handleError e devLogging { st with app := a }

/-- The exception-free try-block body of `init`: load, update the count,
render. -/
def ProductCatalogApp.initBody {ε : Type} (fmtPrice : Int → String)
    (jsonData : List RawProduct) (a : CatalogState) : CatalogState × Option ε :=
  let products := ProductService.loadFromJson a.products jsonData
  let a1 := { a with products := products }
  let a2 := ProductCatalogApp.updateProductCount products.length a1
  ({ a2 with
      containerHtml := ProductRenderer.renderProducts fmtPrice products a2.containerHtml },
    none)

/-- Fields of `ProductCatalogApp` set by its constructor. -/
structure AppCtor where
  serviceProducts : List Product
  renderer : ProductRenderer
  hasCountEl : Bool
deriving DecidableEq

/-- The `ProductCatalogApp` constructor: a fresh service, a renderer on
`"productGrid"` (whose failure propagates), and the optional count
element. -/
def ProductCatalogApp.make (doc : String → Bool) : Except String AppCtor :=
  match ProductRenderer.make doc "productGrid" with
  | .error e => .error e
  | .ok r => .ok { serviceProducts := [], renderer := r, hasCountEl := doc "productCount" }

/-- The spec's description of `uniqueCategories()`: scan the Products in
order, keep only the first Category encountered for each distinct category
id, and return the kept Categories in first-seen order. -/
def uniqueCategoriesSpec : List Product → List Category
  | [] => []
  | p :: ps =>
    p.category :: uniqueCategoriesSpec (ps.filter (fun q => q.category.id != p.category.id))
  termination_by l => l.length
  decreasing_by
    simp only [List.length_cons]
    exact Nat.lt_succ_of_le (List.length_filter_le _ _)

/-! ### Helper lemmas about `escapeHtml` -/

theorem escapeChar_count_lt (c : Char) : ((ProductRenderer.escapeChar c).data).count '<' = 0 := by
  unfold ProductRenderer.escapeChar
  by_cases h1 : c = '&'
  · rw [if_pos h1]; decide
  rw [if_neg h1]
  by_cases h2 : c = '<'
  · rw [if_pos h2]; decide
  rw [if_neg h2]
  by_cases h3 : c = '>'
  · rw [if_pos h3]; decide
  rw [if_neg h3]
  by_cases h4 : c = '\u00A0'
  · rw [if_pos h4]; decide
  rw [if_neg h4]
  show ([c].count '<') = 0
  simp [List.count_cons, Ne.symm h2]

theorem escapeChar_count_gt (c : Char) : ((ProductRenderer.escapeChar c).data).count '>' = 0 := by
  unfold ProductRenderer.escapeChar
  by_cases h1 : c = '&'
  · rw [if_pos h1]; decide
  rw [if_neg h1]
  by_cases h2 : c = '<'
  · rw [if_pos h2]; decide
  rw [if_neg h2]
  by_cases h3 : c = '>'
  · rw [if_pos h3]; decide
  rw [if_neg h3]
  by_cases h4 : c = '\u00A0'
  · rw [if_pos h4]; decide
  rw [if_neg h4]
  show ([c].count '>') = 0
  simp [List.count_cons, Ne.symm h3]

theorem escapeChars_count_lt (l : List Char) : (ProductRenderer.escapeChars l).count '<' = 0 := by
  induction l with
  | nil => rfl
  | cons c cs ih =>
    rw [ProductRenderer.escapeChars, List.count_append, ih, escapeChar_count_lt]

theorem escapeChars_count_gt (l : List Char) : (ProductRenderer.escapeChars l).count '>' = 0 := by
  induction l with
  | nil => rfl
  | cons c cs ih =>
    rw [ProductRenderer.escapeChars, List.count_append, ih, escapeChar_count_gt]

/-- The escaped form of any string contains no raw `<`. -/
theorem escapeHtml_count_lt (s : String) : (ProductRenderer.escapeHtml s).data.count '<' = 0 := by
  unfold ProductRenderer.escapeHtml
  by_cases h : s = ""
  · rw [if_pos h]; rfl
  · rw [if_neg h]; exact escapeChars_count_lt s.data

/-- The escaped form of any string contains no raw `>`. -/
theorem escapeHtml_count_gt (s : String) : (ProductRenderer.escapeHtml s).data.count '>' = 0 := by
  unfold ProductRenderer.escapeHtml
  by_cases h : s = ""
  · rw [if_pos h]; rfl
  · rw [if_neg h]; exact escapeChars_count_gt s.data

theorem cardChunks_count_lt :
    cardChunk0.data.count '<' = 1 ∧ cardChunk1.data.count '<' = 2 ∧
    cardChunk2.data.count '<' = 0 ∧ cardChunk3.data.count '<' = 1 ∧
    cardChunk4.data.count '<' = 4 ∧ cardChunk5.data.count '<' = 2 ∧
    cardChunk6.data.count '<' = 3 ∧ cardChunk7.data.count '<' = 2 ∧
    cardChunk8.data.count '<' = 4 := by decide

theorem cardChunks_count_gt :
    cardChunk0.data.count '>' = 0 ∧ cardChunk1.data.count '>' = 2 ∧
    cardChunk2.data.count '>' = 0 ∧ cardChunk3.data.count '>' = 2 ∧
    cardChunk4.data.count '>' = 4 ∧ cardChunk5.data.count '>' = 2 ∧
    cardChunk6.data.count '>' = 3 ∧ cardChunk7.data.count '>' = 2 ∧
    cardChunk8.data.count '>' = 4 := by decide

/-- C1 (amended): every data-derived string field of the card — title (twice),
short description, category display name and primary-image URL — is inserted
only through `escapeHtml`, and `escapeHtml` output contains no raw `<` or
`>`, so the number of `<` (resp. `>`) characters in the whole card is the 19
of the fixed template plus whatever the two numeric insertions (`product.id`
via `toString` and the formatted price) contribute — independent of the
title, description, category name and image URL. -/
theorem createProductCardHtml_escaped_fields (fmtPrice : Int → String) (product : Product) :
    ProductRenderer.createProductCardHtml fmtPrice product
      = cardChunk0 ++ toString product.id
        ++ cardChunk1 ++ ProductRenderer.escapeHtml product.getPrimaryImage
        ++ cardChunk2 ++ ProductRenderer.escapeHtml product.title
        ++ cardChunk3 ++ ProductRenderer.escapeHtml product.category.getDisplayName
        ++ cardChunk4 ++ ProductRenderer.escapeHtml product.title
        ++ cardChunk5 ++ ProductRenderer.escapeHtml product.getShortDescription
        ++ cardChunk6 ++ fmtPrice product.price
        ++ cardChunk7 ++ toString product.id
        ++ cardChunk8 ∧
    (ProductRenderer.createProductCardHtml fmtPrice product).data.count '<'
      = 19 + (fmtPrice product.price).data.count '<'
          + 2 * (toString product.id).data.count '<' ∧
    (ProductRenderer.createProductCardHtml fmtPrice product).data.count '>'
      = 19 + (fmtPrice product.price).data.count '>'
          + 2 * (toString product.id).data.count '>' := by
  refine ⟨rfl, ?_, ?_⟩
  · simp only [ProductRenderer.createProductCardHtml, String.data_append, List.count_append,
      escapeHtml_count_lt, cardChunks_count_lt.1, cardChunks_count_lt.2.1,
      cardChunks_count_lt.2.2.1, cardChunks_count_lt.2.2.2.1, cardChunks_count_lt.2.2.2.2.1,
      cardChunks_count_lt.2.2.2.2.2.1, cardChunks_count_lt.2.2.2.2.2.2.1,
      cardChunks_count_lt.2.2.2.2.2.2.2.1, cardChunks_count_lt.2.2.2.2.2.2.2.2]
    omega
  · simp only [ProductRenderer.createProductCardHtml, String.data_append, List.count_append,
      escapeHtml_count_gt, cardChunks_count_gt.1, cardChunks_count_gt.2.1,
      cardChunks_count_gt.2.2.1, cardChunks_count_gt.2.2.2.1, cardChunks_count_gt.2.2.2.2.1,
      cardChunks_count_gt.2.2.2.2.2.1, cardChunks_count_gt.2.2.2.2.2.2.1,
      cardChunks_count_gt.2.2.2.2.2.2.2.1, cardChunks_count_gt.2.2.2.2.2.2.2.2]
    omega

/-! ### Sample data for witnesses and counterexamples -/

def sampleCategory : Category :=
  { id := 1, name := "Clothes", slug := "clothes", image := "https://i.imgur.com/QkIa5tT.jpeg",
    creationAt := "2026-01-27T11:46:15.000Z", updatedAt := "2026-01-28T02:54:10.000Z" }

/-- A markup-significant title: it contains attribute-delimiting quotes. -/
def c1Title : String := "\" onerror=\"evil()"

def c1Product : Product :=
  { id := 7, title := c1Title, slug := "s", price := 5, description := some "d",
    category := sampleCategory, images := ["http://x/y.png"],
    creationAt := "", updatedAt := "" }

/-- The card markup for `c1Product` up to the `alt` attribute. -/
def c1CardPre : String :=
  "\n            <article class=\"product-card\" data-product-id=\"7\">\n                <div class=\"product-card__image-wrapper\">\n                    <img \n                        class=\"product-card__image\" \n                        src=\"http://x/y.png\" \n                        "

/-- The card markup for `c1Product` after the `alt` attribute. -/
def c1CardPost : String :=
  "\n                        loading=\"lazy\"\n                        onerror=\"this.src=\x27https://placehold.co/600x400?text=Error\x27\"\n                    >\n                    <span class=\"product-card__category\">\n                        Clothes\n                    </span>\n                </div>\n                <div class=\"product-card__body\">\n                    <h2 class=\"product-card__title\">\" onerror=\"evil()</h2>\n                    <p class=\"product-card__description\">d</p>\n                    <div class=\"product-card__footer\">\n                        <span class=\"product-card__price\">0</span>\n                        <span class=\"product-card__id\">ID: 7</span>\n                    </div>\n                </div>\n            </article>\n        "

set_option maxRecDepth 4000 in
/-- C1 counterexample: `escapeHtml` passes the double quote through
unchanged, so the card rendered for a product whose title is
`" onerror="evil()` contains `alt="" onerror="evil()"` — the quote coming
from the title terminates the `alt` attribute value and introduces a new
`onerror` attribute, instead of appearing as literal text. -/
theorem createProductCardHtml_quote_injection :
    ProductRenderer.escapeHtml c1Title = c1Title ∧
    ProductRenderer.createProductCardHtml (fun _ => "0") c1Product
      = c1CardPre ++ "alt=\"\" onerror=\"evil()\"" ++ c1CardPost := by
  constructor
  · decide
  · decide

def c2Product : Product :=
  { id := 2, title := "t", slug := "t", price := 1, description := some "abcdef",
    category := sampleCategory, images := [], creationAt := "", updatedAt := "" }

/-- C2: `getShortDescription(maxLength)` returns the fixed placeholder when
the description is absent or empty; returns the description unchanged when
its length is at most `maxLength`; and otherwise returns exactly the first
`maxLength` characters followed by the ellipsis marker `...` (so for
`maxLength = 0` on a non-empty description, just the marker). -/
theorem getShortDescription_spec (p : Product) (maxLength : Nat) :
    ((p.description = none ∨ p.description = some "") →
      p.getShortDescription maxLength = noDescriptionText) ∧
    (∀ d : String, p.description = some d → d ≠ "" → d.length ≤ maxLength →
      p.getShortDescription maxLength = d) ∧
    (∀ d : String, p.description = some d → maxLength < d.length →
      (p.getShortDescription maxLength).data = d.data.take maxLength ++ ['.', '.', '.'] ∧
      (d.data.take maxLength).length = maxLength) := by
  refine ⟨?_, ?_, ?_⟩
  · intro h
    rcases h with h | h <;> simp [Product.getShortDescription, strFalsy, h]
  · intro d hd hne hle
    have hf : strFalsy (some d) = false := by
      simpa [strFalsy] using hne
    simp [Product.getShortDescription, hd, hf, hle]
  · intro d hd hlt
    have hne : d ≠ "" := by
      intro h
      rw [h] at hlt
      exact Nat.not_lt_zero _ hlt
    have hf : strFalsy (some d) = false := by
      simpa [strFalsy] using hne
    have hnle : ¬ d.length ≤ maxLength := Nat.not_le.mpr hlt
    constructor
    · have hval : p.getShortDescription maxLength = String.mk (d.data.take maxLength) ++ "..." := by
        simp [Product.getShortDescription, hd, hf, hnle]
      rw [hval, String.data_append]
    · rw [List.length_take]
      exact Nat.min_eq_left (Nat.le_of_lt hlt)

theorem getShortDescription_spec_witness :
    (Product.getShortDescription c2Product 0).data = "abcdef".data.take 0 ++ ['.', '.', '.'] ∧
    ("abcdef".data.take 0).length = 0 :=
  (getShortDescription_spec c2Product 0).2.2 "abcdef" rfl (by decide)

/-- C4: loading the same input twice yields an index observably identical to
loading once — the very same product list, hence the same count and the
same `findById` result for every id. -/
theorem loadFromJson_idempotent (products : List Product) (jsonData : List RawProduct) :
    ProductService.loadFromJson (ProductService.loadFromJson products jsonData) jsonData
      = ProductService.loadFromJson products jsonData ∧
    ProductService.getProductCount
        (ProductService.loadFromJson (ProductService.loadFromJson products jsonData) jsonData)
      = ProductService.getProductCount (ProductService.loadFromJson products jsonData) ∧
    ∀ id : Int,
      ProductService.findById
          (ProductService.loadFromJson (ProductService.loadFromJson products jsonData) jsonData)
          id
        = ProductService.findById (ProductService.loadFromJson products jsonData) id :=
  ⟨rfl, rfl, fun _ => rfl⟩

def c5ProductNoImages : Product :=
  { id := 5, title := "t", slug := "t", price := 1, description := some "d",
    category := sampleCategory, images := [], creationAt := "", updatedAt := "" }

def c5ProductEmptyFirst : Product :=
  { id := 6, title := "t", slug := "t", price := 1, description := some "d",
    category := sampleCategory, images := [""], creationAt := "", updatedAt := "" }

/-- C5 (amended): `getPrimaryImage()` returns the first element of `images`
when that first element is a non-empty string; when `images` is empty, or
its first element is the empty string (also falsy under `||`), it returns
the fixed placeholder URL. -/
theorem getPrimaryImage_spec (p : Product) :
    (p.images = [] → p.getPrimaryImage = placeholderImage) ∧
    (∀ rest, p.images = "" :: rest → p.getPrimaryImage = placeholderImage) ∧
    (∀ img rest, p.images = img :: rest → img ≠ "" → p.getPrimaryImage = img) := by
  refine ⟨?_, ?_, ?_⟩
  · intro h; simp [Product.getPrimaryImage, h]
  · intro rest h; simp [Product.getPrimaryImage, h]
  · intro img rest h hne; simp [Product.getPrimaryImage, h, hne]

theorem getPrimaryImage_spec_witness :
    Product.getPrimaryImage c5ProductNoImages = placeholderImage :=
  (getPrimaryImage_spec c5ProductNoImages).1 rfl

/-- C5 counterexample: a product whose `images` is the non-empty sequence
`[""]` — `getPrimaryImage()` returns the placeholder, not the sequence's
first element (the empty string is falsy under `||`). -/
theorem getPrimaryImage_empty_first_cex :
    c5ProductEmptyFirst.images = [""] ∧
    Product.getPrimaryImage c5ProductEmptyFirst = placeholderImage ∧
    placeholderImage ≠ "" :=
  ⟨rfl, rfl, by decide⟩

def c6Product : Product :=
  { id := 8, title := "t", slug := "t", price := 1, description := some "d",
    category := sampleCategory, images := [], creationAt := "", updatedAt := "" }

/-- C6: `filterByCategory(slug)` is the order-preserving subsequence of the
loaded products whose `category.slug` equals the argument — a sublist of
the input whose members are exactly the matching products — and it is the
empty sequence (not an error) when nothing matches. -/
theorem filterByCategory_spec (products : List Product) (slug : String) :
    List.Sublist (ProductService.filterByCategory products slug) products ∧
    (∀ p : Product, p ∈ ProductService.filterByCategory products slug ↔
      p ∈ products ∧ p.category.slug = slug) ∧
    ((∀ p ∈ products, p.category.slug ≠ slug) →
      ProductService.filterByCategory products slug = []) := by
  refine ⟨List.filter_sublist _, ?_, ?_⟩
  · intro p
    simp [ProductService.filterByCategory, List.mem_filter]
  · intro h
    rw [ProductService.filterByCategory, List.filter_eq_nil_iff]
    intro p hp
    simpa using h p hp

theorem filterByCategory_spec_witness :
    ProductService.filterByCategory [c6Product] "nope" = [] :=
  (filterByCategory_spec [c6Product] "nope").2.2 (by decide)

/-! ### `getUniqueCategories` refinement -/

theorem uniqueCategoriesSpec_cons (p : Product) (ps : List Product) :
    uniqueCategoriesSpec (p :: ps)
      = p.category
          :: uniqueCategoriesSpec (ps.filter (fun q => q.category.id != p.category.id)) := by
  rw [uniqueCategoriesSpec]

theorem mapHasId_append_single (m : List (Int × Category)) (e : Int × Category) (k : Int) :
    mapHasId (m ++ [e]) k = (mapHasId m k || e.1 == k) := by
  simp [mapHasId, List.any_append]

theorem uniqueFold_eq (ps : List Product) :
    ∀ m : List (Int × Category),
      (ps.foldl ProductService.uniqueStep m).map Prod.snd
        = m.map Prod.snd
            ++ uniqueCategoriesSpec
                (ps.filter (fun p => !(mapHasId m p.category.id))) := by
  induction ps with
  | nil => intro m; simp [uniqueCategoriesSpec]
  | cons p ps ih =>
    intro m
    rw [List.foldl_cons, List.filter_cons]
    by_cases h : mapHasId m p.category.id
    · have hstep : ProductService.uniqueStep m p = m := by
        simp [ProductService.uniqueStep, h]
      rw [hstep, ih m, h]
      simp
    · have hb : mapHasId m p.category.id = false := by
        exact Bool.not_eq_true _ ▸ eq_false_of_ne_true h
      have hstep : ProductService.uniqueStep m p
          = m ++ [(p.category.id, p.category)] := by
        simp [ProductService.uniqueStep, hb]
      rw [hstep, ih (m ++ [(p.category.id, p.category)]), hb]
      have hpred : (fun q : Product =>
            !(mapHasId (m ++ [(p.category.id, p.category)]) q.category.id))
          = fun q : Product =>
              (q.category.id != p.category.id) && !(mapHasId m q.category.id) := by
        funext q
        rw [mapHasId_append_single]
        by_cases hq : q.category.id = p.category.id
        · simp [hq]
        · have h1 : (p.category.id == q.category.id) = false :=
            beq_eq_false_iff_ne.mpr (Ne.symm hq)
          have h2 : (q.category.id != p.category.id) = true := by
            simpa [bne] using beq_eq_false_iff_ne.mpr hq
          simp [h1, h2]
      rw [hpred, ← List.filter_filter, List.map_append]
      simp only [Bool.not_true, Bool.not_false, if_true, if_false]
      rw [uniqueCategoriesSpec_cons]
      simp

theorem uniqueCategoriesSpec_mem (n : Nat) :
    ∀ l : List Product, l.length ≤ n →
      ∀ c ∈ uniqueCategoriesSpec l, ∃ p ∈ l, c = p.category := by
  induction n with
  | zero =>
    intro l hl c hc
    rw [List.length_eq_zero.mp (Nat.le_zero.mp hl)] at hc
    simp [uniqueCategoriesSpec] at hc
  | succ n ih =>
    intro l hl c hc
    match l with
    | [] => simp [uniqueCategoriesSpec] at hc
    | p :: ps =>
      rw [uniqueCategoriesSpec_cons] at hc
      rcases List.mem_cons.mp hc with h | h
      · exact ⟨p, List.mem_cons_self p ps, h⟩
      · have hlen : (ps.filter (fun q => q.category.id != p.category.id)).length ≤ n :=
          Nat.le_trans (List.length_filter_le _ _) (Nat.le_of_succ_le_succ hl)
        obtain ⟨q, hq, hcq⟩ := ih _ hlen c h
        exact ⟨q, List.mem_cons_of_mem p (List.mem_of_mem_filter hq), hcq⟩

theorem uniqueCategoriesSpec_nodup (n : Nat) :
    ∀ l : List Product, l.length ≤ n →
      ((uniqueCategoriesSpec l).map (fun c => c.id)).Nodup := by
  induction n with
  | zero =>
    intro l hl
    rw [List.length_eq_zero.mp (Nat.le_zero.mp hl)]
    simp [uniqueCategoriesSpec]
  | succ n ih =>
    intro l hl
    match l with
    | [] => simp [uniqueCategoriesSpec]
    | p :: ps =>
      rw [uniqueCategoriesSpec_cons, List.map_cons, List.nodup_cons]
      constructor
      · intro hmem
        obtain ⟨c, hc, hcid⟩ := List.mem_map.mp hmem
        obtain ⟨q, hq, hcq⟩ :=
          uniqueCategoriesSpec_mem
            (ps.filter (fun r => r.category.id != p.category.id)).length _
            (Nat.le_refl _) c hc
        have hqk := List.of_mem_filter hq
        rw [hcq] at hcid
        rw [hcid] at hqk
        simp at hqk
      · exact ih _ (Nat.le_trans (List.length_filter_le _ _) (Nat.le_of_succ_le_succ hl))

/-- C3: `getUniqueCategories()` coincides with the first-seen scan described
by the spec — one entry per distinct category id, namely the first Category
encountered for that id, in first-seen order — and the ids of the returned
entries are pairwise distinct, however many Products share a category. -/
theorem getUniqueCategories_spec (products : List Product) :
    ProductService.getUniqueCategories products = uniqueCategoriesSpec products ∧
    ((ProductService.getUniqueCategories products).map (fun c => c.id)).Nodup := by
  have h : ProductService.getUniqueCategories products = uniqueCategoriesSpec products := by
    rw [ProductService.getUniqueCategories, uniqueFold_eq products []]
    simp [mapHasId]
  refine ⟨h, ?_⟩
  rw [h]
  exact uniqueCategoriesSpec_nodup products.length products (Nat.le_refl _)

/-! ### Controller-level claims -/

/-- C7: whatever exception the try-block of `init` raises, and from whatever
intermediate state, the catch-all hands it to `handleError`: the container
ends up showing the fixed user-facing message (a constant that does not
mention the exception), and the underlying cause goes only to the console
log (when logging is enabled), never into the rendered output. -/
theorem init_catches_all {ε : Type} (devLogging : Bool)
    (body : CatalogState → CatalogState × Option ε) (st : AppEnv ε)
    (a : CatalogState) (e : ε)
    (h : body { st.app with containerHtml := ProductRenderer.loadingHtml } = (a, some e)) :
    (ProductCatalogApp.init devLogging body st).app.containerHtml
      = ProductRenderer.showErrorHtml errorMessageText ∧
    (ProductCatalogApp.init devLogging body st).consoleLog
      = (if devLogging then e :: st.consoleLog else st.consoleLog) := by
  rw [ProductCatalogApp.init, h]
  exact ⟨rfl, rfl⟩

theorem init_catches_all_witness :
    (ProductCatalogApp.init true (fun a => (a, some "boom"))
        ⟨⟨[], "", none⟩, ([] : List String)⟩).app.containerHtml
      = ProductRenderer.showErrorHtml errorMessageText ∧
    (ProductCatalogApp.init true (fun a => (a, some "boom"))
        ⟨⟨[], "", none⟩, ([] : List String)⟩).consoleLog
      = (if true then ["boom"] else []) :=
  init_catches_all true (fun a => (a, some "boom")) ⟨⟨[], "", none⟩, []⟩ _ "boom" rfl

/-- C8: `renderProducts` replaces the container content wholesale — the new
content is independent of the old; the empty sequence yields the fixed
"no results" markup, which differs from the error markup `handleError`
shows; a non-empty sequence yields the concatenation of the cards in input
order. -/
theorem renderProducts_spec (fmtPrice : Int → String) (products : List Product)
    (oldContent : String) :
    (products = [] →
      ProductRenderer.renderProducts fmtPrice products oldContent
        = ProductRenderer.noProductsHtml) ∧
    (products ≠ [] →
      ProductRenderer.renderProducts fmtPrice products oldContent
        = String.join (products.map (ProductRenderer.createProductCardHtml fmtPrice))) ∧
    (∀ otherContent : String,
      ProductRenderer.renderProducts fmtPrice products oldContent
        = ProductRenderer.renderProducts fmtPrice products otherContent) ∧
    ProductRenderer.noProductsHtml ≠ ProductRenderer.showErrorHtml errorMessageText := by
  refine ⟨?_, ?_, fun _ => rfl, by decide⟩
  · intro h
    simp [ProductRenderer.renderProducts, h]
  · intro h
    simp [ProductRenderer.renderProducts, List.length_eq_zero, h]

theorem renderProducts_spec_witness :
    ProductRenderer.renderProducts (fun _ => "0") [] "old"
      = ProductRenderer.noProductsHtml :=
  (renderProducts_spec (fun _ => "0") [] "old").1 rfl

/-- C9: `ProductCatalogApp` construction fails with the container-not-found
error exactly when `"productGrid"` does not resolve — no app object (and so
no rendering) is produced — and succeeds, with an empty service and the
resolved renderer, exactly when it does. -/
theorem productCatalogApp_construction (doc : String → Bool) :
    (doc "productGrid" = false →
      ProductCatalogApp.make doc = .error (containerNotFoundMessage "productGrid")) ∧
    (doc "productGrid" = true →
      ProductCatalogApp.make doc
        = .ok { serviceProducts := [], renderer := ⟨"productGrid"⟩,
                hasCountEl := doc "productCount" }) := by
  constructor
  · intro h
    simp [ProductCatalogApp.make, ProductRenderer.make, h]
  · intro h
    simp [ProductCatalogApp.make, ProductRenderer.make, h]

theorem productCatalogApp_construction_witness :
    ProductCatalogApp.make (fun _ => false)
      = .error (containerNotFoundMessage "productGrid") :=
  (productCatalogApp_construction (fun _ => false)).1 rfl

def c10Raw : RawProduct :=
  { id := 10, title := "t", slug := "t", price := 1, description := some "d",
    category := { id := 1, name := "Clothes", slug := "clothes", image := "i",
                  creationAt := "", updatedAt := "" },
    images := none, creationAt := "", updatedAt := "" }

/-- C10: a raw record with no `images` field yields a Product whose `images`
is the empty list (`data.images || []`), so `getPrimaryImage()` returns the
placeholder without failing. -/
theorem product_ofRaw_images_default (raw : RawProduct) (h : raw.images = none) :
    (Product.ofRaw raw).images = [] ∧
    (Product.ofRaw raw).getPrimaryImage = placeholderImage := by
  have himg : (Product.ofRaw raw).images = [] := by
    simp [Product.ofRaw, h]
  exact ⟨himg, by rw [Product.getPrimaryImage, himg]⟩

theorem product_ofRaw_images_default_witness :
    (Product.ofRaw c10Raw).images = [] ∧
    (Product.ofRaw c10Raw).getPrimaryImage = placeholderImage :=
  product_ofRaw_images_default c10Raw rfl
